import Mathlib

/-!
# watchdir: the argument switch and the read-decode-dispatch loop

A shallow embedding of `main` of `watchdir.go`.

The program talks to the outside through a handful of library calls.  Each of
them is recorded, in program order, in a trace of `Effect`s; what the outside
answers (whether the watcher could be launched, what its output stream holds,
what every `pgrep` run returns, what `cmd.Wait()` returns) is an explicit input,
the `World`.

Go strings are modelled by Lean strings, `[]byte` output printed with `%s` by
the string it prints.  The timestamp that the `log` package puts in front of an
entry is not part of an entry here: an entry is the text handed to the logger.

The signal-forwarding goroutine (`signal.Notify` and `cmd.Process.Signal`) runs
concurrently with the loop and is not part of this sequential model.
-/

namespace Watchdir

/-! ## The outside world -/

/-- One reading step of the tokeniser of `encoding/csv`, before the check of the
number of fields: the number of the input line on which the next record of the
stream starts (`recLine`, counted from 1), the fields found on it and, when the
record could not be tokenised or the pipe failed, the text of the error (never
`io.EOF`: the end of the stream is the end of the list of steps). -/
structure RawRead where
  line : Nat
  fields : List String
  err : Option String
  deriving DecidableEq, Repr

/-- A record, starting on the given line, that was tokenised without error. -/
def RawRead.record (line : Nat) (fields : List String) : RawRead := ⟨line, fields, none⟩

/-- The error values `r.Read()` can return besides `io.EOF`, which is the end of
the list of reading steps: a `*csv.ParseError` that wraps `csv.ErrFieldCount`
for the record that starts on the given line, or another error, given by its
text. -/
inductive GoError
  | ErrFieldCount (line : Nat)
  | other (msg : String)
  deriving DecidableEq, Repr

/-- The text of an error (`err.Error()`); for the field-count error it is
`record on line N: wrong number of fields`, from the method `Error` of
`csv.ParseError`. -/
def GoError.Error : GoError → String
  | .ErrFieldCount line => "record on line " ++ toString line ++ ": wrong number of fields"
  | .other msg => msg

/-- What one run of `pg.Output()` gives back: the captured standard output, the
text collected in `pg.Stderr`, and the error (`nil` is `none`). -/
structure PgrepResult where
  out : String
  stderr : String
  err : Option String
  deriving DecidableEq, Repr

/-- How launching the watcher goes: `cmd.StdoutPipe()` fails, `cmd.Start()`
fails, or the watcher runs, writes `stream` and `cmd.Wait()` later returns
`waitErr`. -/
inductive Launch
  | pipeFailed (err : String)
  | startFailed (err : String)
  | started (stream : List RawRead) (waitErr : Option String)

/-- Everything the environment decides.  `pgrep k` is the result of the `k`-th
process query of the run, counting from 0. -/
structure World where
  launch : Launch
  pgrep : Nat → PgrepResult

/-! ## Observable effects -/

/-- The library calls of `main` that act on the outside, named after the call. -/
inductive Effect
  /-- Call of `cmd.Start()` on the command with this argument vector. -/
  | cmdStart (argv : List String)
  /-- Call of `pg.Output()`: the command with this argument vector is run to completion. -/
  | cmdOutput (argv : List String)
  /-- Call of `cmd.Wait()` on the watcher. -/
  | cmdWait
  /-- Call of `log.Println` or `log.Printf`: one log entry with this text. -/
  | log (msg : String)
  /-- Call of `fmt.Printf`: this text is written to standard output. -/
  | stdout (text : String)
  /-- Call of `log.Fatal` or `log.Fatalf`: one log entry, then `os.Exit(1)`. -/
  | fatal (msg : String)
  /-- A run-time panic (index out of range). -/
  | goPanic
  deriving DecidableEq, Repr

/-- A finished run: what it did, in order, and its exit status. -/
structure Run where
  trace : List Effect
  exitCode : Nat
  deriving DecidableEq, Repr

/-- How the dispatch loop was left: by `break` on `io.EOF`, or by `log.Fatal`. -/
inductive LoopEnd
  | eof
  | fatal
  deriving DecidableEq, Repr

/-! ## Formatting -/

/-- A `[]string` under the verb `%v`: the elements between brackets, separated
by one space. -/
def fmtSlice (xs : List String) : String :=
  "[" ++ " ".intercalate xs ++ "]"

/-- The entry of `log.Println("unexpected line: %v", line)`: `Println` does no
substitution, it prints its operands separated by a space and ends the line. -/
def unexpectedLineMsg (line : List String) : String :=
  "unexpected line: %v" ++ " " ++ fmtSlice line ++ "\n"

/-- The entry of `log.Printf("pgrep: %v\n%s", err, pg.Stderr)`. -/
def pgrepMsg (err stderr : String) : String :=
  "pgrep: " ++ err ++ "\n" ++ stderr

/-- The text of `fmt.Printf("*** %s %s\n%s\n", event, eFile, out)`. -/
def reportText (event eFile out : String) : String :=
  "*** " ++ event ++ " " ++ eFile ++ "\n" ++ out ++ "\n"

/-- An `error` under the verb `%v`; `nil` prints as `<nil>`. -/
def fmtErr : Option String → String
  | none => "<nil>"
  | some e => e

/-- The entry of `log.Printf("%s:\n\t%v", strings.Join(cmd.Args, " "), cmd.Wait())`. -/
def waitMsg (args : List String) (res : Option String) : String :=
  " ".intercalate args ++ ":\n\t" ++ fmtErr res

/-- The text of `log.Fatalf("usage: %s DIR [FILE] PATTERN", os.Args[0])`. -/
def usageMsg (prog : String) : String :=
  "usage: " ++ prog ++ " DIR [FILE] PATTERN"

/-! ## The program -/

/-- The three variables `dir`, `file`, `pattern` of `main`. -/
structure Config where
  dir : String
  file : String
  pattern : String
  deriving DecidableEq, Repr

/-- The outcome of the `switch len(os.Args)`. -/
inductive ArgResult
  | config (cfg : Config)
  | usage (msg : String)
  | indexPanic
  deriving DecidableEq, Repr

/-- The `switch len(os.Args)` of `main`: case 3, case 4, and the default, which
formats `os.Args[0]` into the usage line (an index out of range when `os.Args`
is empty). -/
def parseArgs : List String → ArgResult
  | [_, a1, a2] => .config ⟨a1, "*", a2⟩
  | [_, a1, a2, a3] => .config ⟨a1, a2, a3⟩
  | [] => .indexPanic
  | prog :: _ => .usage (usageMsg prog)

/-- The argument vector of `exec.Command("inotifywait", ...)`. -/
def inotifyArgs (dir : String) : List String :=
  ["inotifywait", "-m", "--csv", "-e", "create", "-e", "delete", "-e", "modify",
   "-e", "move", "-e", "attrib", "-r", dir]

/-- The argument vector of `exec.Command("pgrep", "-ax", pattern)`. -/
def pgrepArgs (pattern : String) : List String :=
  ["pgrep", "-ax", pattern]

/-- The end of `readRecord` of `encoding/csv`, as `r.Read()` runs it on every
record: with `FieldsPerRecord > 0` a record of another length that had no
error of its own gets `ErrFieldCount` at its line; with `FieldsPerRecord = 0` the record
sets `FieldsPerRecord`; a negative value switches the check off.  Returns the
record, the error and the new `FieldsPerRecord`. -/
def readRecord (FieldsPerRecord : Int) (raw : RawRead) :
    (List String × Option GoError) × Int :=
  if FieldsPerRecord > 0 then
    if (raw.fields.length : Int) ≠ FieldsPerRecord ∧ raw.err = none then
      ((raw.fields, some (.ErrFieldCount raw.line)), FieldsPerRecord)
    else
      ((raw.fields, raw.err.map .other), FieldsPerRecord)
  else if FieldsPerRecord = 0 then
    ((raw.fields, raw.err.map .other), (raw.fields.length : Int))
  else
    ((raw.fields, raw.err.map .other), FieldsPerRecord)

/-- The effects of the body of `if file == "*" || eFile == file`, given the
result of the query. -/
def queryEffects (pattern event eFile : String) (res : PgrepResult) : List Effect :=
  [Effect.cmdOutput (pgrepArgs pattern)]
    ++ (match res.err with
        | some e => [Effect.log (pgrepMsg e res.stderr)]
        | none => [])
    ++ [Effect.stdout (reportText event eFile res.out)]

/-- The `for` loop of `main`, from the reader state `FieldsPerRecord` with `n`
process queries made so far: the effects of the loop and how it ended. -/
def dispatchLoop (file pattern : String) (pgrep : Nat → PgrepResult) :
    List RawRead → Int → Nat → List Effect × LoopEnd
  | [], _, _ => ([], .eof)
  | raw :: rest, fpr, n =>
    match readRecord fpr raw with
    | ((_, some err), _) => ([Effect.fatal err.Error], .fatal)
    | ((line, none), fpr') =>
      match line with
      | [_, event, eFile] =>
        if file = "*" ∨ eFile = file then
          let r := dispatchLoop file pattern pgrep rest fpr' (n + 1)
          (queryEffects pattern event eFile (pgrep n) ++ r.1, r.2)
        else
          dispatchLoop file pattern pgrep rest fpr' n
      | _ =>
        let r := dispatchLoop file pattern pgrep rest fpr' n
        (Effect.log (unexpectedLineMsg line) :: r.1, r.2)

/-- The part of `main` after the argument switch.  The deferred function (wait
on the watcher, log the result) runs when `main` returns, not on `log.Fatal`. -/
def runConfig (cfg : Config) (w : World) : Run :=
  match w.launch with
  | .pipeFailed e => ⟨[Effect.fatal e], 1⟩
  | .startFailed e => ⟨[Effect.cmdStart (inotifyArgs cfg.dir), Effect.fatal e], 1⟩
  | .started stream waitErr =>
    match dispatchLoop cfg.file cfg.pattern w.pgrep stream 0 0 with
    | (tr, .fatal) => ⟨Effect.cmdStart (inotifyArgs cfg.dir) :: tr, 1⟩
    | (tr, .eof) =>
      ⟨Effect.cmdStart (inotifyArgs cfg.dir) :: tr
        ++ [Effect.cmdWait, Effect.log (waitMsg (inotifyArgs cfg.dir) waitErr)], 0⟩

/-- The program, run on `os.Args` in a given world. -/
def main (osArgs : List String) (w : World) : Run :=
  match parseArgs osArgs with
  | .config cfg => runConfig cfg w
  | .usage msg => ⟨[Effect.fatal msg], 1⟩
  | .indexPanic => ⟨[Effect.goPanic], 2⟩

/-! ## Observers on traces -/

/-- The argument vectors of the process queries of a trace, in order. -/
def queries : List Effect → List (List String)
  | [] => []
  | .cmdOutput argv :: es => argv :: queries es
  | _ :: es => queries es

/-- Everything a trace writes to standard output, concatenated. -/
def stdoutText : List Effect → String
  | [] => ""
  | .stdout t :: es => t ++ stdoutText es
  | _ :: es => stdoutText es

/-- The number of times a trace waits on the watcher. -/
def waits : List Effect → Nat
  | [] => 0
  | .cmdWait :: es => waits es + 1
  | _ :: es => waits es

/-! ## The output format, in the words of the specification -/

/-- Whether a record matches the filter, as the specification says it: the
wildcard matches every record, another filter the records whose third field is
equal to it. -/
def specMatches (file : String) (line : List String) : Bool :=
  decide (file = "*" ∨ line.getD 2 "" = file)

/-- The block the specification asks for the `k`-th matching record: the marker
line with the second and third field, the text captured from the `k`-th query,
and a line break. -/
def specBlock (pgrep : Nat → PgrepResult) (p : Nat × List String) : String :=
  "*** " ++ p.2.getD 1 "" ++ " " ++ p.2.getD 2 "" ++ "\n" ++ (pgrep p.1).out ++ "\n"

/-- The standard output the specification asks for a stream of records: the
blocks of the matching records, in the order of the stream, nothing between. -/
def specStdout (file : String) (pgrep : Nat → PgrepResult)
    (records : List (List String)) : String :=
  String.join (((records.filter (specMatches file)).enum).map (specBlock pgrep))

/-! ## Concrete worlds -/

/-- A process query that finds one process and succeeds. -/
def pgrepFound : Nat → PgrepResult :=
  fun _ => ⟨"123 myproc\n", "", none⟩

/-- A process query that fails: exit status 2, nothing on standard output, a
message on standard error. -/
def pgrepFails : Nat → PgrepResult :=
  fun _ => ⟨"", "no such pattern", some "exit status 2"⟩

/-- The watcher writes a 2-field line, then a valid event. -/
def worldShortThenValid : World :=
  ⟨.started [.record 1 ["a", "b"], .record 2 ["/tmp/watched", "CREATE", "foo.txt"]] none,
    pgrepFound⟩

/-- The watcher writes a valid event, then a 2-field line, then a valid event. -/
def worldValidThenShort : World :=
  ⟨.started [.record 1 ["/tmp/watched", "CREATE", "foo.txt"], .record 2 ["a", "b"],
      .record 3 ["/tmp/watched", "MODIFY", "foo.txt"]] none, pgrepFound⟩

/-- The watcher writes one event, on `bar.txt`, and exits with status 1. -/
def worldBar : World :=
  ⟨.started [.record 1 ["/tmp/watched", "MODIFY", "bar.txt"]] (some "exit status 1"),
    pgrepFound⟩

/-- The watcher writes one event, on `foo.txt`; the process query fails. -/
def worldQueryFails : World :=
  ⟨.started [.record 1 ["/tmp/watched", "CREATE", "foo.txt"]] none, pgrepFails⟩

/-- A process query whose captured output tells the queries apart. -/
def pgrepNumbered : Nat → PgrepResult :=
  fun k => ⟨if k = 0 then "11 first\n" else "22 later\n", "", none⟩

/-- The watcher writes three events: on `foo.txt`, on `bar.txt`, on `foo.txt`. -/
def worldThreeEvents : World :=
  ⟨.started [.record 1 ["/tmp/watched", "CREATE", "foo.txt"],
      .record 2 ["/tmp/watched", "MODIFY", "bar.txt"],
      .record 3 ["/tmp/watched/sub", "DELETE", "foo.txt"]] none, pgrepNumbered⟩

/-- The watcher could not be started. -/
def worldNoWatcher : World :=
  ⟨.startFailed "exec: \"inotifywait\": executable file not found in $PATH", pgrepFound⟩

/-! ## The reader and one turn of the loop -/

theorem readRecord_three (fpr : Int) (raw : RawRead) (he : raw.err = none)
    (hl : raw.fields.length = 3) (hf : fpr = 0 ∨ fpr = 3) :
    readRecord fpr raw = ((raw.fields, none), 3) := by
  rcases hf with h | h <;> subst h <;> simp [readRecord, he, hl]

theorem dispatchLoop_query (file pattern : String) (pgrep : Nat → PgrepResult)
    (raw : RawRead) (rest : List RawRead) (fpr fpr' : Int) (n : Nat) (d k f : String)
    (hread : readRecord fpr raw = (([d, k, f], none), fpr'))
    (hm : file = "*" ∨ f = file) :
    dispatchLoop file pattern pgrep (raw :: rest) fpr n
      = (queryEffects pattern k f (pgrep n)
            ++ (dispatchLoop file pattern pgrep rest fpr' (n + 1)).1,
          (dispatchLoop file pattern pgrep rest fpr' (n + 1)).2) := by
  simp [dispatchLoop, hread, hm]

theorem dispatchLoop_skip (file pattern : String) (pgrep : Nat → PgrepResult)
    (raw : RawRead) (rest : List RawRead) (fpr fpr' : Int) (n : Nat) (d k f : String)
    (hread : readRecord fpr raw = (([d, k, f], none), fpr'))
    (hm : ¬ (file = "*" ∨ f = file)) :
    dispatchLoop file pattern pgrep (raw :: rest) fpr n
      = dispatchLoop file pattern pgrep rest fpr' n := by
  simp [dispatchLoop, hread, hm]

theorem dispatchLoop_fatal (file pattern : String) (pgrep : Nat → PgrepResult)
    (raw : RawRead) (rest : List RawRead) (fpr fpr' : Int) (n : Nat) (line : List String)
    (e : GoError) (hread : readRecord fpr raw = ((line, some e), fpr')) :
    dispatchLoop file pattern pgrep (raw :: rest) fpr n = ([Effect.fatal e.Error], .fatal) := by
  simp [dispatchLoop, hread]

/-! ## Observers and concatenation -/

theorem queries_append (xs ys : List Effect) : queries (xs ++ ys) = queries xs ++ queries ys := by
  induction xs with
  | nil => rfl
  | cons x xs ih => cases x <;> simp [queries, ih]

theorem waits_append (xs ys : List Effect) : waits (xs ++ ys) = waits xs + waits ys := by
  induction xs with
  | nil => simp [waits]
  | cons x xs ih =>
    cases x <;> simp [waits, ih]
    omega

theorem stdoutText_append (xs ys : List Effect) :
    stdoutText (xs ++ ys) = stdoutText xs ++ stdoutText ys := by
  induction xs with
  | nil => simp [stdoutText]
  | cons x xs ih => cases x <;> simp [stdoutText, ih, String.append_assoc]

theorem queries_queryEffects (pattern event eFile : String) (res : PgrepResult) :
    queries (queryEffects pattern event eFile res) = [pgrepArgs pattern] := by
  unfold queryEffects
  cases res.err <;> simp [queries]

theorem waits_queryEffects (pattern event eFile : String) (res : PgrepResult) :
    waits (queryEffects pattern event eFile res) = 0 := by
  unfold queryEffects
  cases res.err <;> simp [waits]

theorem stdoutText_queryEffects (pattern event eFile : String) (res : PgrepResult) :
    stdoutText (queryEffects pattern event eFile res) = reportText event eFile res.out := by
  unfold queryEffects
  cases res.err <;> simp [stdoutText]

/-! ## Facts about the whole loop -/

theorem queries_dispatchLoop (file pattern : String) (pgrep : Nat → PgrepResult)
    (stream : List RawRead) : ∀ (fpr : Int) (n : Nat),
    ∀ argv ∈ queries (dispatchLoop file pattern pgrep stream fpr n).1,
      argv = pgrepArgs pattern := by
  induction stream with
  | nil => intro fpr n argv h; simp [dispatchLoop, queries] at h
  | cons raw rest ih =>
    intro fpr n argv h
    unfold dispatchLoop at h
    split at h
    · simp [queries] at h
    · split at h
      · split at h
        · simp only [queries_append, queries_queryEffects, List.mem_append,
            List.mem_singleton] at h
          rcases h with h | h
          · exact h
          · exact ih _ _ _ h
        · exact ih _ _ _ h
      · simp only [queries] at h
        exact ih _ _ _ h

theorem waits_dispatchLoop (file pattern : String) (pgrep : Nat → PgrepResult)
    (stream : List RawRead) : ∀ (fpr : Int) (n : Nat),
    waits (dispatchLoop file pattern pgrep stream fpr n).1 = 0 := by
  induction stream with
  | nil => intro fpr n; simp [dispatchLoop, waits]
  | cons raw rest ih =>
    intro fpr n
    unfold dispatchLoop
    split
    · simp [waits]
    · split
      · split
        · simp [waits_append, waits_queryEffects, ih]
        · exact ih _ _
      · simp [waits, ih]

theorem main_of_eof (osArgs : List String) (w : World) (cfg : Config)
    (stream : List RawRead) (waitErr : Option String)
    (hcfg : parseArgs osArgs = .config cfg)
    (hlaunch : w.launch = .started stream waitErr)
    (hend : (dispatchLoop cfg.file cfg.pattern w.pgrep stream 0 0).2 = .eof) :
    main osArgs w
      = ⟨Effect.cmdStart (inotifyArgs cfg.dir)
            :: (dispatchLoop cfg.file cfg.pattern w.pgrep stream 0 0).1
            ++ [Effect.cmdWait, Effect.log (waitMsg (inotifyArgs cfg.dir) waitErr)], 0⟩ := by
  simp only [main, hcfg, runConfig, hlaunch]
  split
  next tr heq => rw [heq] at hend; cases hend
  next tr heq => rw [heq]

/-- The wait entry, character by character: the command line of the watcher, a
colon, a line break, a tab, and the result of the wait. -/
theorem waitMsg_inotifyArgs (dir : String) (res : Option String) :
    waitMsg (inotifyArgs dir) res
      = "inotifywait -m --csv -e create -e delete -e modify -e move -e attrib -r "
          ++ dir ++ ":\n\t" ++ res.getD "<nil>" := by
  apply String.ext
  cases res <;>
    simp only [waitMsg, inotifyArgs, fmtErr, String.intercalate, String.intercalate.go,
      String.data_append, Option.getD, List.append_assoc] <;> rfl

theorem join_cons (a : String) (l : List String) : String.join (a :: l) = a ++ String.join l := by
  apply String.ext
  simp [String.data_join]

/-- On a stream of 3-field records the loop reaches the end of the stream, and
its output and its queries are those of the matching records. -/
theorem dispatchLoop_records (file pattern : String) (pgrep : Nat → PgrepResult)
    (stream : List RawRead) (h3 : ∀ r ∈ stream, r.err = none ∧ r.fields.length = 3) :
    ∀ (fpr : Int) (n : Nat), fpr = 0 ∨ fpr = 3 →
      (dispatchLoop file pattern pgrep stream fpr n).2 = .eof
      ∧ stdoutText (dispatchLoop file pattern pgrep stream fpr n).1
          = String.join
              ((List.enumFrom n ((stream.map RawRead.fields).filter (specMatches file))).map
                (specBlock pgrep))
      ∧ queries (dispatchLoop file pattern pgrep stream fpr n).1
          = ((stream.map RawRead.fields).filter (specMatches file)).map
              (fun _ => pgrepArgs pattern) := by
  induction stream with
  | nil => intro fpr n _; simp [dispatchLoop, stdoutText, queries, String.join]
  | cons r rest ih =>
    intro fpr n hf
    obtain ⟨he, hl⟩ := h3 r (List.mem_cons_self _ _)
    have ih' := ih (fun x hx => h3 x (List.mem_cons_of_mem _ hx))
    have hread := readRecord_three fpr r he hl hf
    match hfs : r.fields, hl with
    | [d, k, f], _ =>
      rw [hfs] at hread
      by_cases hm : file = "*" ∨ f = file
      · have hs : specMatches file [d, k, f] = true := by simpa [specMatches] using hm
        obtain ⟨h1, h2, h4⟩ := ih' 3 (n + 1) (Or.inr rfl)
        rw [List.map_cons, hfs,
          dispatchLoop_query file pattern pgrep _ _ fpr 3 n d k f hread hm,
          List.filter_cons_of_pos hs]
        refine ⟨h1, ?_, ?_⟩
        · simp only [stdoutText_append, stdoutText_queryEffects, h2, List.enumFrom_cons,
            List.map_cons, join_cons]
          rfl
        · simp only [queries_append, queries_queryEffects, h4, List.map_cons]
          rfl
      · have hs : ¬ specMatches file [d, k, f] = true := by simpa [specMatches] using hm
        rw [List.map_cons, hfs,
          dispatchLoop_skip file pattern pgrep _ _ fpr 3 n d k f hread hm,
          List.filter_cons_of_neg hs]
        exact ih' 3 n (Or.inr rfl)

/-! ## The claims -/

/-- C1 (as the code runs): a record of the wrong length is logged and skipped
only while the reader has not fixed another length.  A 2-field first line is
logged, and the valid event after it ends the program in `log.Fatal`; a 2-field
line after a valid event ends the program in `log.Fatal` without a log entry
for it, and the valid event that follows is never read. -/
theorem C1_short_line_is_fatal :
    main ["watchdir", "/tmp/watched", "myproc"] worldShortThenValid
      = ⟨[Effect.cmdStart (inotifyArgs "/tmp/watched"),
          Effect.log "unexpected line: %v [a b]\n",
          Effect.fatal "record on line 2: wrong number of fields"], 1⟩
    ∧ main ["watchdir", "/tmp/watched", "myproc"] worldValidThenShort
      = ⟨[Effect.cmdStart (inotifyArgs "/tmp/watched"),
          Effect.cmdOutput ["pgrep", "-ax", "myproc"],
          Effect.stdout "*** CREATE foo.txt\n123 myproc\n\n",
          Effect.fatal "record on line 2: wrong number of fields"], 1⟩ := by
  constructor <;> rfl

/-- C2 (counterexample): with `*` given as the FILE argument, an event on
`bar.txt`, whose filename differs from the filter, triggers a process query
and a report on standard output. -/
theorem C2_star_filter_counterexample :
    "bar.txt" ≠ "*"
    ∧ queries (main ["watchdir", "/tmp/watched", "*", "myproc"] worldBar).trace
        = [["pgrep", "-ax", "myproc"]]
    ∧ stdoutText (main ["watchdir", "/tmp/watched", "*", "myproc"] worldBar).trace
        = "*** MODIFY bar.txt\n123 myproc\n\n" := by
  refine ⟨by decide, ?_, ?_⟩ <;> rfl

/-- C2 (amended): for every filter `F` other than `*` and every 3-field event
the reader delivers, if the filename field differs from `F` the loop goes on
to the next record without any effect for this event: no output, no process
query, no log entry, and the count of queries is unchanged.  So an event
contributes a query only if its filename equals `F`. -/
theorem C2_exact_filter_skips_other_files (F pattern : String) (pgrep : Nat → PgrepResult)
    (raw : RawRead) (rest : List RawRead) (fpr fpr' : Int) (n : Nat) (d k f : String)
    (hF : F ≠ "*")
    (hread : readRecord fpr raw = (([d, k, f], none), fpr'))
    (hf : f ≠ F) :
    dispatchLoop F pattern pgrep (raw :: rest) fpr n
      = dispatchLoop F pattern pgrep rest fpr' n :=
  dispatchLoop_skip F pattern pgrep raw rest fpr fpr' n d k f hread
    (by rintro (h | h); exact hF h; exact hf h)

/-- C2 (witness): filter `foo.txt`, event on `bar.txt`, followed by the end of
the stream. -/
theorem C2_exact_filter_witness :
    dispatchLoop "foo.txt" "myproc" pgrepFound
        [.record 1 ["/tmp/watched", "MODIFY", "bar.txt"]] 0 0
      = dispatchLoop "foo.txt" "myproc" pgrepFound [] 3 0 :=
  C2_exact_filter_skips_other_files "foo.txt" "myproc" pgrepFound
    (.record 1 ["/tmp/watched", "MODIFY", "bar.txt"]) [] 0 3 0 "/tmp/watched" "MODIFY" "bar.txt"
    (by decide) (by decide) (by decide)

/-- C3 (as the code runs): with the filter `*`, a valid 3-field event that
comes after a 2-field line triggers no process query.  The reader, which took the
count 2 from the first line, returns the event with the field-count error, the
program ends in `log.Fatal`, and nothing is queried or printed; the same with
`*` given as the FILE argument. -/
theorem C3_wildcard_event_after_short_line_not_queried :
    readRecord 2 (.record 2 ["/tmp/watched", "CREATE", "foo.txt"])
      = ((["/tmp/watched", "CREATE", "foo.txt"], some (.ErrFieldCount 2)), 2)
    ∧ queries (main ["watchdir", "/tmp/watched", "myproc"] worldShortThenValid).trace = []
    ∧ stdoutText (main ["watchdir", "/tmp/watched", "myproc"] worldShortThenValid).trace = ""
    ∧ (main ["watchdir", "/tmp/watched", "myproc"] worldShortThenValid).exitCode = 1
    ∧ queries (main ["watchdir", "/tmp/watched", "*", "myproc"] worldShortThenValid).trace = []
    ∧ (main ["watchdir", "/tmp/watched", "*", "myproc"] worldShortThenValid).exitCode
        = 1 := by
  refine ⟨by decide, ?_, ?_, ?_, ?_, ?_⟩ <;> rfl

/-- C5: when a delivered 3-field event matches the filter and its process
query returns an error `e` with captured output `out` and captured
standard-error text `errText`, the loop runs the query, logs one entry made of
`pgrep: `, the error, a line break and the standard-error text, prints the
marker line followed by the captured output, and goes on with the next record:
the rest of the run is the run of the loop on the remaining stream. -/
theorem C5_failed_query_is_logged_and_printed (file pattern : String)
    (pgrep : Nat → PgrepResult) (raw : RawRead) (rest : List RawRead) (fpr fpr' : Int)
    (n : Nat) (d k f out errText e : String)
    (hread : readRecord fpr raw = (([d, k, f], none), fpr'))
    (hm : file = "*" ∨ f = file)
    (hq : pgrep n = ⟨out, errText, some e⟩) :
    dispatchLoop file pattern pgrep (raw :: rest) fpr n
      = ([Effect.cmdOutput ["pgrep", "-ax", pattern],
          Effect.log ("pgrep: " ++ e ++ "\n" ++ errText),
          Effect.stdout ("*** " ++ k ++ " " ++ f ++ "\n" ++ out ++ "\n")]
            ++ (dispatchLoop file pattern pgrep rest fpr' (n + 1)).1,
          (dispatchLoop file pattern pgrep rest fpr' (n + 1)).2) := by
  rw [dispatchLoop_query file pattern pgrep raw rest fpr fpr' n d k f hread hm, hq]
  rfl

/-- C5 (witness): the query of an event on `foo.txt` exits with status 2 and
the text `no such pattern` on standard error; the stream goes on with another
event.  As a whole run with this event alone: the failure is logged, the marker
line is printed, and the program ends by the wait, with exit status 0. -/
theorem C5_failed_query_witness :
    dispatchLoop "foo.txt" "myproc" pgrepFails
        [.record 1 ["/tmp/watched", "CREATE", "foo.txt"],
         .record 2 ["/tmp/watched", "DELETE", "foo.txt"]] 0 0
      = ([Effect.cmdOutput ["pgrep", "-ax", "myproc"],
          Effect.log ("pgrep: " ++ "exit status 2" ++ "\n" ++ "no such pattern"),
          Effect.stdout ("*** " ++ "CREATE" ++ " " ++ "foo.txt" ++ "\n" ++ "" ++ "\n")]
            ++ (dispatchLoop "foo.txt" "myproc" pgrepFails
                  [.record 2 ["/tmp/watched", "DELETE", "foo.txt"]] 3 (0 + 1)).1,
          (dispatchLoop "foo.txt" "myproc" pgrepFails
                  [.record 2 ["/tmp/watched", "DELETE", "foo.txt"]] 3 (0 + 1)).2)
    ∧ main ["watchdir", "/tmp/watched", "foo.txt", "myproc"] worldQueryFails
      = ⟨[Effect.cmdStart (inotifyArgs "/tmp/watched"),
          Effect.cmdOutput ["pgrep", "-ax", "myproc"],
          Effect.log "pgrep: exit status 2\nno such pattern",
          Effect.stdout "*** CREATE foo.txt\n\n",
          Effect.cmdWait,
          Effect.log ("inotifywait -m --csv -e create -e delete -e modify -e move -e attrib -r "
            ++ "/tmp/watched:\n\t<nil>")], 0⟩ :=
  ⟨C5_failed_query_is_logged_and_printed "foo.txt" "myproc" pgrepFails
    (.record 1 ["/tmp/watched", "CREATE", "foo.txt"])
    [.record 2 ["/tmp/watched", "DELETE", "foo.txt"]] 0 3 0
    "/tmp/watched" "CREATE" "foo.txt" "" "no such pattern" "exit status 2"
    (by decide) (Or.inr rfl) rfl,
   rfl⟩

/-- C6: with two arguments after the program name the run is the run of the
configuration (arg1, `*`, arg2); with three it is the run of (arg1, arg2,
arg3); with any other number of arguments after the program name the whole run
is one fatal usage entry and exit status 1, so no subprocess is started. -/
theorem C6_argument_handling :
    (∀ (prog a1 a2 : String) (w : World),
      parseArgs [prog, a1, a2] = .config ⟨a1, "*", a2⟩
      ∧ main [prog, a1, a2] w = runConfig ⟨a1, "*", a2⟩ w)
    ∧ (∀ (prog a1 a2 a3 : String) (w : World),
      parseArgs [prog, a1, a2, a3] = .config ⟨a1, a2, a3⟩
      ∧ main [prog, a1, a2, a3] w = runConfig ⟨a1, a2, a3⟩ w)
    ∧ (∀ (prog : String) (rest : List String) (w : World),
      rest.length ≠ 2 → rest.length ≠ 3 →
      main (prog :: rest) w
        = ⟨[Effect.fatal ("usage: " ++ prog ++ " DIR [FILE] PATTERN")], 1⟩) := by
  refine ⟨fun _ _ _ _ => ⟨rfl, rfl⟩, fun _ _ _ _ _ => ⟨rfl, rfl⟩, ?_⟩
  intro prog rest w h2 h3
  match rest, h2, h3 with
  | [], _, _ => rfl
  | [_], _, _ => rfl
  | [_, _], h2, _ => exact absurd rfl h2
  | [_, _, _], _, h3 => exact absurd rfl h3
  | _ :: _ :: _ :: _ :: _, _, _ => rfl

/-- C6 (witness): one argument after the program name, and five of them. -/
theorem C6_argument_witness :
    main ("watchdir" :: ["/tmp/watched"]) worldNoWatcher
      = ⟨[Effect.fatal ("usage: " ++ "watchdir" ++ " DIR [FILE] PATTERN")], 1⟩
    ∧ main ("watchdir" :: ["a", "b", "c", "d", "e"]) worldNoWatcher
      = ⟨[Effect.fatal ("usage: " ++ "watchdir" ++ " DIR [FILE] PATTERN")], 1⟩ :=
  ⟨C6_argument_handling.2.2 "watchdir" ["/tmp/watched"] worldNoWatcher (by decide) (by decide),
   C6_argument_handling.2.2 "watchdir" ["a", "b", "c", "d", "e"] worldNoWatcher
     (by decide) (by decide)⟩

/-- C7: in every run, whatever the arguments, the stream and the results of the
queries, every process query is started with the argument vector `pgrep`,
`-ax`, pattern, where pattern is the configured pattern, unchanged and in one
piece; the vector does not depend on the event. -/
theorem C7_query_argument_vector (osArgs : List String) (w : World) (cfg : Config)
    (hcfg : parseArgs osArgs = .config cfg) :
    ∀ argv ∈ queries (main osArgs w).trace, argv = ["pgrep", "-ax", cfg.pattern] := by
  intro argv h
  simp only [main, hcfg, runConfig] at h
  cases hl : w.launch with
  | pipeFailed e => rw [hl] at h; simp [queries] at h
  | startFailed e => rw [hl] at h; simp [queries] at h
  | started stream waitErr =>
    rw [hl] at h
    dsimp only at h
    have key := queries_dispatchLoop cfg.file cfg.pattern w.pgrep stream 0 0 argv
    cases hd : dispatchLoop cfg.file cfg.pattern w.pgrep stream 0 0 with
    | mk tr e =>
      rw [hd] at h key
      cases e
      · have h' : argv ∈ queries tr := by
          dsimp only at h
          rw [List.cons_append] at h
          simpa [queries, queries_append] using h
        exact key h'
      · have h' : argv ∈ queries tr := by simpa [queries] using h
        exact key h'

/-- C7 (witness): a pattern with spaces and shell metacharacters, an event whose
fields hold shell metacharacters too; the one query of the run gets the
pattern as its third argument. -/
theorem C7_query_argument_witness :
    queries (main ["watchdir", "/tmp/watched", "my proc; rm -rf $HOME | $(id)"]
      ⟨.started [.record 1 ["/tmp/watched", "CREATE", "x; reboot"]] none, pgrepFound⟩).trace
      = [["pgrep", "-ax", "my proc; rm -rf $HOME | $(id)"]]
    ∧ ∀ argv ∈ queries (main ["watchdir", "/tmp/watched", "my proc; rm -rf $HOME | $(id)"]
        ⟨.started [.record 1 ["/tmp/watched", "CREATE", "x; reboot"]] none, pgrepFound⟩).trace,
      argv = ["pgrep", "-ax", "my proc; rm -rf $HOME | $(id)"] :=
  ⟨rfl, C7_query_argument_vector _ _ ⟨"/tmp/watched", "*", "my proc; rm -rf $HOME | $(id)"⟩ rfl⟩

/-- C8: when the loop leaves by the end of the stream, the run is: start of the
watcher, the effects of the loop, one wait on the watcher, one log entry whose
text is the command line of the watcher, a colon, a line break, a tab and the
result of the wait (the text of the error, or `<nil>`); the exit status is 0
whatever the wait returned, and the run waits exactly once, after every effect
of the loop. -/
theorem C8_end_of_stream_waits_once (osArgs : List String) (w : World) (cfg : Config)
    (stream : List RawRead) (waitErr : Option String)
    (hcfg : parseArgs osArgs = .config cfg)
    (hlaunch : w.launch = .started stream waitErr)
    (hend : (dispatchLoop cfg.file cfg.pattern w.pgrep stream 0 0).2 = .eof) :
    main osArgs w
      = ⟨Effect.cmdStart ["inotifywait", "-m", "--csv", "-e", "create", "-e", "delete",
              "-e", "modify", "-e", "move", "-e", "attrib", "-r", cfg.dir]
            :: (dispatchLoop cfg.file cfg.pattern w.pgrep stream 0 0).1
            ++ [Effect.cmdWait,
                Effect.log
                  ("inotifywait -m --csv -e create -e delete -e modify -e move -e attrib -r "
                    ++ cfg.dir ++ ":\n\t" ++ waitErr.getD "<nil>")], 0⟩
    ∧ waits (dispatchLoop cfg.file cfg.pattern w.pgrep stream 0 0).1 = 0
    ∧ waits (main osArgs w).trace = 1 := by
  have hw := waits_dispatchLoop cfg.file cfg.pattern w.pgrep stream 0 0
  have hmain := main_of_eof osArgs w cfg stream waitErr hcfg hlaunch hend
  rw [waitMsg_inotifyArgs] at hmain
  refine ⟨hmain, hw, ?_⟩
  rw [hmain]
  show waits (Effect.cmdStart _ :: (_ ++ _)) = 1
  simp [waits, waits_append, hw]

/-- C8 (witness): one event on `bar.txt`, queried under the filter `*`, then
the end of the stream; the watcher exits with status 1, which is logged, and
the program exits with status 0.  In a second run the wait returns no error
and the entry ends in `<nil>`. -/
theorem C8_end_of_stream_witness :
    (main ["watchdir", "/tmp/watched", "myproc"] worldBar
      = ⟨Effect.cmdStart ["inotifywait", "-m", "--csv", "-e", "create", "-e", "delete",
              "-e", "modify", "-e", "move", "-e", "attrib", "-r", "/tmp/watched"]
            :: [Effect.cmdOutput ["pgrep", "-ax", "myproc"],
                Effect.stdout "*** MODIFY bar.txt\n123 myproc\n\n"]
            ++ [Effect.cmdWait,
                Effect.log
                  ("inotifywait -m --csv -e create -e delete -e modify -e move -e attrib -r "
                    ++ "/tmp/watched" ++ ":\n\t" ++ "exit status 1")], 0⟩
      ∧ waits [Effect.cmdOutput ["pgrep", "-ax", "myproc"],
                Effect.stdout "*** MODIFY bar.txt\n123 myproc\n\n"] = 0
      ∧ waits (main ["watchdir", "/tmp/watched", "myproc"] worldBar).trace = 1)
    ∧ (main ["watchdir", "/tmp/watched", "foo.txt", "myproc"] worldThreeEvents).trace.getLast?
        = some (Effect.log
            ("inotifywait -m --csv -e create -e delete -e modify -e move -e attrib -r "
              ++ "/tmp/watched" ++ ":\n\t" ++ "<nil>"))
    ∧ (main ["watchdir", "/tmp/watched", "foo.txt", "myproc"] worldThreeEvents).exitCode = 0 :=
  ⟨C8_end_of_stream_waits_once ["watchdir", "/tmp/watched", "myproc"] worldBar
    ⟨"/tmp/watched", "*", "myproc"⟩ [.record 1 ["/tmp/watched", "MODIFY", "bar.txt"]]
    (some "exit status 1") rfl rfl rfl, by rfl, by rfl⟩

/-- C4: when the watcher is started and writes a finite stream of 3-field
records, the standard output of the run is exactly the concatenation, in the
order of the stream, of one block per matching record, made of the marker line
with the second and third field of the record, the output captured from the
query of that record (the `k`-th query for the `k`-th matching record) and a
line break; the run makes one query per matching record and none for the
others, which add nothing to the output. -/
theorem C4_standard_output_is_the_blocks_in_order (osArgs : List String) (w : World)
    (cfg : Config) (stream : List RawRead) (waitErr : Option String)
    (hcfg : parseArgs osArgs = .config cfg)
    (hlaunch : w.launch = .started stream waitErr)
    (h3 : ∀ r ∈ stream, r.err = none ∧ r.fields.length = 3) :
    stdoutText (main osArgs w).trace
        = specStdout cfg.file w.pgrep (stream.map RawRead.fields)
    ∧ queries (main osArgs w).trace
        = ((stream.map RawRead.fields).filter (specMatches cfg.file)).map
            (fun _ => ["pgrep", "-ax", cfg.pattern]) := by
  obtain ⟨h1, h2, h4⟩ :=
    dispatchLoop_records cfg.file cfg.pattern w.pgrep stream h3 0 0 (Or.inl rfl)
  rw [main_of_eof osArgs w cfg _ waitErr hcfg hlaunch h1]
  constructor
  · show stdoutText (Effect.cmdStart _ :: (_ ++ _)) = _
    simp only [stdoutText, stdoutText_append, h2, specStdout, List.enum]
    apply String.ext
    simp
  · show queries (Effect.cmdStart _ :: (_ ++ _)) = _
    simp only [queries, queries_append, h4, List.append_nil]
    rfl

/-- C4 (witness): three events, two of them on the file of the filter; the
output is the block of the first with the text of the first query, then the
block of the third with the text of the second query. -/
theorem C4_standard_output_witness :
    (stdoutText (main ["watchdir", "/tmp/watched", "foo.txt", "myproc"] worldThreeEvents).trace
        = specStdout "foo.txt" pgrepNumbered
            [["/tmp/watched", "CREATE", "foo.txt"], ["/tmp/watched", "MODIFY", "bar.txt"],
             ["/tmp/watched/sub", "DELETE", "foo.txt"]]
      ∧ queries (main ["watchdir", "/tmp/watched", "foo.txt", "myproc"] worldThreeEvents).trace
        = ([["/tmp/watched", "CREATE", "foo.txt"], ["/tmp/watched", "MODIFY", "bar.txt"],
             ["/tmp/watched/sub", "DELETE", "foo.txt"]].filter (specMatches "foo.txt")).map
            (fun _ => ["pgrep", "-ax", "myproc"]))
    ∧ stdoutText (main ["watchdir", "/tmp/watched", "foo.txt", "myproc"] worldThreeEvents).trace
        = "*** CREATE foo.txt\n11 first\n\n*** DELETE foo.txt\n22 later\n\n" :=
  ⟨C4_standard_output_is_the_blocks_in_order
      ["watchdir", "/tmp/watched", "foo.txt", "myproc"] worldThreeEvents
      ⟨"/tmp/watched", "foo.txt", "myproc"⟩
      [.record 1 ["/tmp/watched", "CREATE", "foo.txt"],
       .record 2 ["/tmp/watched", "MODIFY", "bar.txt"],
       .record 3 ["/tmp/watched/sub", "DELETE", "foo.txt"]] none rfl rfl (by decide),
   rfl⟩

end Watchdir
